import Mathlib

/-!
Shallow embedding of the query-routing and plan-validation pipeline of the
repository (orchestrator, analytics agent, SEO agent), together with proofs
about the routing, validation, execution and fusion logic.

Conventions of the embedding:
* Python strings are Lean `String`s; `str.lower()` is `pyLower` (ASCII case
  folding, which covers every string the pipeline compares), `str.strip()` is
  `pyStrip`, and the Python substring test `a in b` is `pyIn a b`.
* A missing/NaN cell of a pandas DataFrame is `none : Option String`; a sheet
  cell (always a string) is `some s`.  `Series.astype(str)` renders NaN as the
  string "nan", which `astypeStr` reproduces.
* Python `float(...)` / `pd.to_numeric(..., errors="coerce")` are modelled by
  `pyFloat : String → Option ℚ`, a plain decimal parser; exponent notation,
  inf/nan spellings and binary-float rounding are not modelled (no claim in
  this development depends on them).
* The external text-generation oracle is out of scope: where the code parses
  the oracle's reply, the embedding takes the parse outcome as an argument
  (`Option ClassifierOutput`, a plan value, or a message string); where the
  code would send a network request, the embedding stops at the fully built
  request value or takes the provider's reply as an argument.
* Fallible code (`float(...)`, `datetime.fromisoformat`, the spreadsheet
  fetch) returns `Except String _`.
-/

/-! ## String helpers (Python semantics) -/

/-- Python `str.lower()` restricted to ASCII case folding
(every keyword, mapping key and column name the pipeline compares is ASCII). -/
def pyLower (s : String) : String := ⟨s.data.map Char.toLower⟩

/-- Drop whitespace from both ends of a character list (Python `str.strip()`). -/
def stripChars (l : List Char) : List Char :=
  ((l.dropWhile Char.isWhitespace).reverse.dropWhile Char.isWhitespace).reverse

/-- Python `str.strip()` with no arguments (whitespace on both ends). -/
def pyStrip (s : String) : String := ⟨stripChars s.data⟩

/-- Substring test on character lists: `needle` occurs contiguously in `hay`. -/
def pyInChars (needle hay : List Char) : Bool :=
  match hay with
  | [] => needle.isEmpty
  | c :: t => needle.isPrefixOf (c :: t) || pyInChars needle t

/-- The Python membership test `needle in hay` on strings (substring test). -/
def pyIn (needle hay : String) : Bool := pyInChars needle.data hay.data

/-- Value of a list of decimal digit characters. -/
def digitsVal (l : List Char) : Nat :=
  l.foldl (fun a c => a * 10 + (c.toNat - 48)) 0

/-- Split a character list at the first '.', if any. -/
def splitDot (l : List Char) : List Char × Option (List Char) :=
  match l.span (fun c => c ≠ '.') with
  | (a, []) => (a, none)
  | (a, _ :: rest) => (a, some rest)

/-- Parse an unsigned decimal numeral `d+`, `d+.d*`, `.d+` or `d+.d+`. -/
def parseUnsignedDecimal (l : List Char) : Option ℚ :=
  match splitDot l with
  | (intp, none) =>
    if !intp.isEmpty && intp.all Char.isDigit then some (digitsVal intp) else none
  | (intp, some frac) =>
    if frac.all (fun c => c ≠ '.') && intp.all Char.isDigit && frac.all Char.isDigit
        && (!intp.isEmpty || !frac.isEmpty) then
      some ((digitsVal intp : ℚ) + (digitsVal frac : ℚ) / ((10 : ℚ) ^ frac.length))
    else none

/-- Python `float(s)` / `pd.to_numeric` on one string: optional sign and plain
decimal notation, surrounding whitespace ignored; `none` models the raised
`ValueError` (resp. NaN under `errors="coerce"`). -/
def pyFloat (s : String) : Option ℚ :=
  match stripChars s.data with
  | '-' :: rest => (parseUnsignedDecimal rest).map (fun q => -q)
  | '+' :: rest => parseUnsignedDecimal rest
  | l => parseUnsignedDecimal l

/-- `Series.astype(str)` on one cell: NaN renders as the string "nan". -/
def astypeStr (c : Option String) : String :=
  match c with
  | none => "nan"
  | some s => s

/-- Truthiness of an optional string (Python: `None` and `""` are falsy). -/
def optStrTruthy : Option String → Bool
  | none => false
  | some s => s ≠ ""

/-! ## Intent router (`Orchestrator._detect_intent`, orchestrator.py 96-155) -/

/-- `QueryIntent` dataclass (orchestrator.py 12-18). -/
structure QueryIntent where
  requires_analytics : Bool
  requires_seo : Bool
  is_cross_agent : Bool
  reasoning : String
deriving DecidableEq, Repr

/-- Outcome of extracting and parsing the first `{...}` span of the classifier
reply (orchestrator.py 127-137): each field is `data.get(key, default)`.  The
JSON extraction itself is external text processing and is modelled by whether
a `ClassifierOutput` was obtained at all (`some`) or not (`none`). -/
structure ClassifierOutput where
  requires_analytics : Option Bool := none
  requires_seo : Option Bool := none
  is_cross_agent : Option Bool := none
  reasoning : Option String := none
deriving DecidableEq, Repr

/-- `analytics_keywords` of the router fallback (orchestrator.py 144). -/
def analytics_keywords : List String :=
  ["page view", "session", "traffic", "user", "ga4", "analytics", "daily", "trend"]

/-- `seo_keywords` of the router fallback (orchestrator.py 145). -/
def seo_keywords : List String :=
  ["url", "title tag", "meta", "https", "indexab", "seo", "screaming frog"]

/-- `has_analytics` of the router fallback (orchestrator.py 147). -/
def hasAnalyticsKeyword (query : String) : Bool :=
  analytics_keywords.any (fun kw => pyIn kw (pyLower query))

/-- `has_seo` of the router fallback (orchestrator.py 148). -/
def hasSeoKeyword (query : String) : Bool :=
  seo_keywords.any (fun kw => pyIn kw (pyLower query))

/-- `Orchestrator._detect_intent` (orchestrator.py 96-155): a successfully
parsed classifier object is returned field-by-field with `False`/`""`
defaults; otherwise the keyword fallback fires, with
`requires_analytics = has_analytics or (not has_seo)`. -/
def detectIntent (parsed : Option ClassifierOutput) (query : String) : QueryIntent :=
  match parsed with
  | some d =>
    { requires_analytics := d.requires_analytics.getD false
      requires_seo := d.requires_seo.getD false
      is_cross_agent := d.is_cross_agent.getD false
      reasoning := d.reasoning.getD "" }
  | none =>
    let has_analytics := hasAnalyticsKeyword query
    let has_seo := hasSeoKeyword query
    { requires_analytics := has_analytics || !has_seo
      requires_seo := has_seo
      is_cross_agent := has_analytics && has_seo
      reasoning := "Keyword-based detection" }

/-! ## Agent responses and orchestrator routing (orchestrator.py 32-94) -/

/-- `AgentResponse` dataclass (base.py 6-13).  `data` is an opaque payload. -/
structure AgentResponse where
  success : Bool
  data : Option String
  message : String
  agent_name : String
  error : Option String := none
deriving DecidableEq, Repr

/-- The four shapes `Orchestrator.process_query` can take after intent
detection (orchestrator.py 53-87). -/
inductive RouteOutcome where
  | missingProperty
  | noHandler
  | single (r : AgentResponse)
  | fused (rs : List AgentResponse)
deriving DecidableEq, Repr

/-- Steps 2-3 of `Orchestrator.process_query` (orchestrator.py 53-87): build
the response list from the intent flags; an analytics intent without a truthy
`property_id` returns early; an empty response list reaches the
"Could not determine appropriate agent" branch. -/
def routeQuery (intent : QueryIntent) (property_id : Option String)
    (analyticsResp seoResp : AgentResponse) : RouteOutcome :=
  if intent.requires_analytics && !(optStrTruthy property_id) then
    .missingProperty
  else
    let responses :=
      (if intent.requires_analytics then [analyticsResp] else []) ++
      (if intent.requires_seo then [seoResp] else [])
    match responses with
    | [] => .noHandler
    | [r] => .single r
    | rs => .fused rs

/-! ## Response fuser (`Orchestrator._fuse_responses`, orchestrator.py 167-229) -/

/-- Result of `_fuse_responses`: the error dict of lines 178-182, or the
success dict of lines 220-229 (whose `message` comes from the oracle). -/
inductive FusedResult where
  | failure (error : String) (partial_data : List (String × Option String))
  | fusedOk (message : String) (analytics seo : Option String) (agents : List String)
deriving DecidableEq, Repr

/-- Truthiness of `r.error` in `[r.error for r in responses if r.error]`. -/
def truthyErr : Option String → Bool
  | none => false
  | some s => s ≠ ""

/-- `Orchestrator._fuse_responses` (orchestrator.py 167-229).  `oracleMessage`
stands for the synthesized narrative the oracle returns on the success path;
the analytics/seo payloads are the last responses with those agent names
(the Python for-loop reassigns on every match). -/
def fuseResponses (responses : List AgentResponse) (oracleMessage : String) : FusedResult :=
  let errors := responses.filterMap (fun r => if truthyErr r.error then r.error else none)
  if errors ≠ [] then
    .failure (String.intercalate "; " errors)
      (responses.filterMap (fun r => if r.success then some (r.agent_name, r.data) else none))
  else
    let analytics_data :=
      match (responses.filter (fun r => r.agent_name == "analytics")).getLast? with
      | some r => r.data
      | none => none
    let seo_data :=
      match (responses.filter (fun r => r.agent_name == "seo")).getLast? with
      | some r => r.data
      | none => none
    .fusedOk oracleMessage analytics_data seo_data (responses.map (fun r => r.agent_name))

/-! ## Analytics agent: allowlists and mappings (analytics_agent.py 30-86) -/

/-- `VALID_METRICS` (analytics_agent.py 30-37).  The Python value is a `set`;
the embedding keeps the literal's order (set iteration order is unspecified,
which the source's own comments accept for the fuzzy tie-break). -/
def VALID_METRICS : List String :=
  ["activeUsers", "newUsers", "totalUsers", "sessions", "sessionsPerUser",
   "screenPageViews", "screenPageViewsPerSession", "screenPageViewsPerUser",
   "engagedSessions", "engagementRate", "averageSessionDuration",
   "bounceRate", "eventCount", "eventsPerSession", "conversions",
   "totalRevenue", "purchaseRevenue", "userEngagementDuration",
   "dauPerMau", "dauPerWau", "wauPerMau"]

/-- `VALID_DIMENSIONS` (analytics_agent.py 39-49), literal order. -/
def VALID_DIMENSIONS : List String :=
  ["date", "dateHour", "dateHourMinute", "dayOfWeek", "dayOfWeekName",
   "month", "year", "week", "hour", "minute",
   "country", "city", "region", "continent", "subContinent",
   "language", "browser", "operatingSystem", "deviceCategory",
   "platform", "mobileDeviceBranding", "mobileDeviceModel",
   "pagePath", "pageTitle", "pageLocation", "landingPage",
   "sessionSource", "sessionMedium", "sessionCampaignName",
   "sessionDefaultChannelGroup", "firstUserSource", "firstUserMedium",
   "eventName", "hostName"]

/-- `METRIC_MAPPINGS` (analytics_agent.py 52-67), insertion order. -/
def METRIC_MAPPINGS : List (String × String) :=
  [("page views", "screenPageViews"),
   ("pageviews", "screenPageViews"),
   ("views", "screenPageViews"),
   ("users", "totalUsers"),
   ("active users", "activeUsers"),
   ("new users", "newUsers"),
   ("sessions", "sessions"),
   ("bounce rate", "bounceRate"),
   ("engagement rate", "engagementRate"),
   ("session duration", "averageSessionDuration"),
   ("avg session duration", "averageSessionDuration"),
   ("events", "eventCount"),
   ("conversions", "conversions"),
   ("revenue", "totalRevenue")]

/-- `DIMENSION_MAPPINGS` (analytics_agent.py 69-86), insertion order. -/
def DIMENSION_MAPPINGS : List (String × String) :=
  [("date", "date"),
   ("day", "date"),
   ("page", "pagePath"),
   ("page path", "pagePath"),
   ("path", "pagePath"),
   ("country", "country"),
   ("city", "city"),
   ("device", "deviceCategory"),
   ("browser", "browser"),
   ("source", "sessionSource"),
   ("medium", "sessionMedium"),
   ("channel", "sessionDefaultChannelGroup"),
   ("traffic source", "sessionDefaultChannelGroup"),
   ("landing page", "landingPage"),
   ("event", "eventName"),
   ("event name", "eventName")]

/-- `AnalyticsAgent._find_closest_metric` (analytics_agent.py 275-281):
first allowlist entry related to the request by bidirectional
case-insensitive substring containment. -/
def findClosestMetric (metric : String) : Option String :=
  let ml := pyLower metric
  VALID_METRICS.find? (fun valid => pyIn ml (pyLower valid) || pyIn (pyLower valid) ml)

/-- `AnalyticsAgent._find_closest_dimension` (analytics_agent.py 283-289). -/
def findClosestDimension (dimension : String) : Option String :=
  let dl := pyLower dimension
  VALID_DIMENSIONS.find? (fun valid => pyIn dl (pyLower valid) || pyIn (pyLower valid) dl)

/-- The three-tier metric resolution of `_validate_plan` (analytics_agent.py
234-244): lower-cased mapping key, else exact canonical name, else fuzzy. -/
def resolveMetric (metric : String) : Option String :=
  match List.lookup (pyLower metric) METRIC_MAPPINGS with
  | some v => some v
  | none =>
    if VALID_METRICS.contains metric then some metric
    else findClosestMetric metric

/-- The three-tier dimension resolution of `_validate_plan` (analytics_agent.py
254-262). -/
def resolveDimension (dimension : String) : Option String :=
  match List.lookup (pyLower dimension) DIMENSION_MAPPINGS with
  | some v => some v
  | none =>
    if VALID_DIMENSIONS.contains dimension then some dimension
    else findClosestDimension dimension

/-! ## Analytics agent: plan and validation (analytics_agent.py 223-273) -/

/-- One element of the plan's `filters` list; `dimension`/`value` may be
missing from the JSON dict (the code reads them with `.get`). -/
structure GAFilterItem where
  dimension : Option String := none
  value : Option String := none
deriving DecidableEq, Repr

/-- The plan's `date_range` dict; keys may be absent.  `startDate`/`endDate`
embed the Python keys "start"/"end". -/
structure DateRangeCfg where
  type : Option String := none
  days : Option Int := none
  startDate : Option String := none
  endDate : Option String := none
deriving DecidableEq, Repr

/-- The GA4 reporting plan dict.  `order_by` is an opaque payload: the code
stores it and passes it through but never reads inside it. -/
structure GAPlan where
  metrics : List String := []
  dimensions : List String := []
  date_range : Option DateRangeCfg := none
  filters : List GAFilterItem := []
  order_by : Option String := none
deriving DecidableEq, Repr

/-- The metric/dimension loop of `_validate_plan` (analytics_agent.py 234-247
and 254-265): resolve each name, append when resolved and not already
present (dedup, insertion order preserved). -/
def processNames (resolve : String → Option String) :
    List String → List String → List String
  | [], acc => acc
  | m :: rest, acc =>
    match resolve m with
    | some api =>
      if acc.contains api then processNames resolve rest acc
      else processNames resolve rest (acc ++ [api])
    | none => processNames resolve rest acc

/-- Keep-condition for a filter clause in `_validate_plan` (analytics_agent.py
268-271): `dim in VALID_DIMENSIONS or dim.lower() in DIMENSION_MAPPINGS`. -/
def filterKeep (f : GAFilterItem) : Bool :=
  VALID_DIMENSIONS.contains (f.dimension.getD "") ||
    (List.lookup (pyLower (f.dimension.getD "")) DIMENSION_MAPPINGS).isSome

/-- `AnalyticsAgent._validate_plan` (analytics_agent.py 223-273). -/
def validatePlan (plan : GAPlan) : GAPlan :=
  let metrics := processNames resolveMetric plan.metrics []
  let metrics := if metrics = [] then ["screenPageViews"] else metrics
  let dimensions := processNames resolveDimension plan.dimensions []
  { metrics := metrics
    dimensions := dimensions
    date_range := some (plan.date_range.getD { type := some "relative", days := some 7 })
    filters := plan.filters.filter filterKeep
    order_by := plan.order_by }

/-! ## Analytics agent: report request construction (analytics_agent.py 291-344) -/

/-- A resolved date endpoint: `rel` is a value produced by `datetime.now()`
arithmetic (as an abstract day index), `abs` a `datetime.fromisoformat` parse. -/
inductive DateVal where
  | rel (day : Int)
  | dateYmd (y m d : Int)
deriving DecidableEq, Repr

/-- `datetime.fromisoformat` on the canonical `YYYY-MM-DD` form; other
accepted spellings are not modelled (no claim depends on them).  `none`
models the raised `ValueError`. -/
def parseIsoDate (s : String) : Option (Int × Int × Int) :=
  match s.data with
  | [y1, y2, y3, y4, '-', m1, m2, '-', d1, d2] =>
    if [y1, y2, y3, y4, m1, m2, d1, d2].all Char.isDigit then
      let y : Int := digitsVal [y1, y2, y3, y4]
      let m : Int := digitsVal [m1, m2]
      let d : Int := digitsVal [d1, d2]
      if 1 ≤ m && m ≤ 12 && 1 ≤ d && d ≤ 31 then some (y, m, d) else none
    else none
  | _ => none

/-- Date-range resolution of `_execute_query` (analytics_agent.py 296-310):
`relative` mode computes `end = now`, `start = now - days`; any other mode
parses the `start`/`end` ISO strings, a malformed date being fatal. -/
def resolveDates (now : Int) (cfg : DateRangeCfg) : Except String (DateVal × DateVal) :=
  if cfg.type == some "relative" then
    let days := cfg.days.getD 7
    .ok (.rel (now - days), .rel now)
  else
    match parseIsoDate (cfg.startDate.getD ""), parseIsoDate (cfg.endDate.getD "") with
    | some (y1, m1, d1), some (y2, m2, d2) =>
      .ok (.dateYmd y1 m1 d1, .dateYmd y2 m2 d2)
    | _, _ => .error "Invalid isoformat string"

/-- `Filter.StringFilter` of the GA4 request (analytics_agent.py 329-332). -/
structure GAStringFilter where
  match_type : String
  value : String
deriving DecidableEq, Repr

/-- `FilterExpression(filter=Filter(...))` of the GA4 request
(analytics_agent.py 326-334). -/
structure FilterExpr where
  field_name : String
  string_filter : GAStringFilter
deriving DecidableEq, Repr

/-- Translation of one plan filter clause into the request's dimension filter
(analytics_agent.py 321-334): missing dimension defaults to "pagePath",
a lower-cased mapping key is renamed, match type is CONTAINS. -/
def translateFilter (f : GAFilterItem) : FilterExpr :=
  let dimName := f.dimension.getD "pagePath"
  let dimName :=
    match List.lookup (pyLower dimName) DIMENSION_MAPPINGS with
    | some v => v
    | none => dimName
  { field_name := dimName
    string_filter := { match_type := "CONTAINS", value := f.value.getD "" } }

/-- `RunReportRequest` (analytics_agent.py 337-344). -/
structure RunReportRequest where
  property : String
  date_ranges : List (DateVal × DateVal)
  metrics : List String
  dimensions : Option (List String)
  dimension_filter : Option FilterExpr
  limit : Int
deriving DecidableEq, Repr

/-- The request-construction part of `AnalyticsAgent._execute_query`
(analytics_agent.py 291-344), stopping at the fully built request (the
network call and response reshaping are the provider's side). -/
def buildReportRequest (property_id : String) (plan : GAPlan) (now : Int) :
    Except String RunReportRequest :=
  match resolveDates now (plan.date_range.getD {}) with
  | .error e => .error e
  | .ok (startD, endD) =>
    .ok
      { property := "properties/" ++ property_id
        date_ranges := [(startD, endD)]
        metrics := plan.metrics
        dimensions := if plan.dimensions.isEmpty then none else some plan.dimensions
        dimension_filter :=
          match plan.filters with
          | [] => none
          | f :: _ => some (translateFilter f)
        limit := 1000 }

/-! ## SEO agent: table model and column resolution (seo_agent.py 297-333) -/

/-- One DataFrame cell: `none` is a missing/NaN entry (short Sheets rows are
NaN-padded), `some s` a string cell (all sheet values arrive as strings). -/
abbrev Cell := Option String

/-- The in-memory DataFrame: column names plus rows of cells. -/
structure Table where
  cols : List String
  rows : List (List Cell)
deriving DecidableEq, Repr

/-- Cell of a row at a column position (out-of-range reads are the NaN
padding pandas applies to short rows). -/
def cellAt (row : List Cell) (i : Nat) : Cell := row.getD i none

/-- The `mappings` table of `SEOAgent._find_column` (seo_agent.py 315-324),
insertion order. -/
def seoColumnMappings : List (String × List String) :=
  [("url", ["address", "url"]),
   ("title", ["title 1", "title", "title tag"]),
   ("meta description", ["meta description 1", "meta description"]),
   ("status", ["status code"]),
   ("indexability", ["indexability", "indexable"]),
   ("content", ["content type"]),
   ("word count", ["word count"]),
   ("h1", ["h1-1", "h1"])]

/-- `SEOAgent._find_column` (seo_agent.py 297-333): falsy search gives none;
then exact lower-cased match, bidirectional substring match, and the
concept-alias table (for each matching key, each alternative is sought as a
substring of a column name; a keyless miss falls through to later keys). -/
def findColumn (cols : List String) (search : String) : Option String :=
  if search = "" then none
  else
    let searchLower := pyStrip (pyLower search)
    match cols.find? (fun col => pyLower col == searchLower) with
    | some col => some col
    | none =>
      match cols.find? (fun col =>
          pyIn searchLower (pyLower col) || pyIn (pyLower col) searchLower) with
      | some col => some col
      | none =>
        seoColumnMappings.findSome? (fun kv =>
          if pyIn searchLower kv.1 || pyIn kv.1 searchLower then
            kv.2.findSome? (fun alt => cols.find? (fun col => pyIn alt (pyLower col)))
          else none)

/-! ## SEO agent: analysis plan and executor (seo_agent.py 206-295) -/

/-- One element of the plan's `filters` list (keys read with `.get`:
column defaults to "", operator to "equals", value to ""). -/
structure SEOFilterItem where
  column : Option String := none
  operator : Option String := none
  value : Option String := none
deriving DecidableEq, Repr

/-- The SEO analysis plan dict. `operation` and `return_json` are carried but
not read by `_execute_analysis`. -/
structure SEOPlan where
  operation : Option String := none
  filters : List SEOFilterItem := []
  group_by : Option String := none
  aggregation : Option String := none
  select_columns : List String := []
  limit : Option Int := none
  return_json : Bool := false
deriving DecidableEq, Repr

/-- The cell predicate of the `is_empty` branch (seo_agent.py 250-253):
`isna() | (astype(str).str.strip() == "")`. -/
def isEmptyCellPred (c : Cell) : Bool :=
  c.isNone || (pyStrip (astypeStr c) == "")

/-- The cell predicate of the `not_empty` branch (seo_agent.py 254-257):
`notna() & (astype(str).str.strip() != "")`. -/
def notEmptyCellPred (c : Cell) : Bool :=
  !c.isNone && (pyStrip (astypeStr c) != "")

/-- The row mask of one filter clause (the `elif` chain of seo_agent.py
216-257), given the resolved column position `i`:
`.error` is the `ValueError` of `float(value)` on an unparseable bound,
`.ok none` an unrecognized operator (the DataFrame passes through unchanged),
`.ok (some p)` the boolean mask applied as `result_df = result_df[mask]`. -/
def filterPred (fi : SEOFilterItem) (i : Nat) :
    Except String (Option (List Cell → Bool)) :=
  let op := fi.operator.getD "equals"
  let v := fi.value.getD ""
  if op = "equals" then
    .ok (some (fun r =>
      match cellAt r i with
      | some c => c == v
      | none => false))
  else if op = "not_equals" then
    .ok (some (fun r =>
      match cellAt r i with
      | some c => c != v
      | none => true))
  else if op = "contains" then
    .ok (some (fun r => pyIn (pyLower v) (pyLower (astypeStr (cellAt r i)))))
  else if op = "not_contains" then
    .ok (some (fun r => !pyIn (pyLower v) (pyLower (astypeStr (cellAt r i)))))
  else if op = "greater" then
    match pyFloat v with
    | none => .error ("could not convert string to float: " ++ v)
    | some x =>
      if pyIn "length" (pyLower (fi.column.getD "")) then
        .ok (some (fun r => decide (((astypeStr (cellAt r i)).length : ℚ) > x)))
      else
        .ok (some (fun r =>
          match (cellAt r i).bind pyFloat with
          | some y => decide (y > x)
          | none => false))
  else if op = "less" then
    match pyFloat v with
    | none => .error ("could not convert string to float: " ++ v)
    | some x =>
      if pyIn "length" (pyLower (fi.column.getD "")) then
        .ok (some (fun r => decide (((astypeStr (cellAt r i)).length : ℚ) < x)))
      else
        .ok (some (fun r =>
          match (cellAt r i).bind pyFloat with
          | some y => decide (y < x)
          | none => false))
  else if op = "is_empty" then
    .ok (some (fun r => isEmptyCellPred (cellAt r i)))
  else if op = "not_empty" then
    .ok (some (fun r => notEmptyCellPred (cellAt r i)))
  else
    .ok none

/-- One iteration of the filter loop of `_execute_analysis` (seo_agent.py
211-257): an unresolvable column is skipped (`continue`), otherwise the
clause's mask filters the current rows. -/
def applyFilterStep (df : Table) (fi : SEOFilterItem) (rows : List (List Cell)) :
    Except String (List (List Cell)) :=
  match findColumn df.cols (fi.column.getD "") with
  | none => .ok rows
  | some col =>
    match filterPred fi (df.cols.indexOf col) with
    | .error e => .error e
    | .ok none => .ok rows
    | .ok (some p) => .ok (rows.filter p)

/-- The whole filter loop: clauses apply sequentially (logical AND). -/
def applyFilters (df : Table) (fis : List SEOFilterItem) (rows : List (List Cell)) :
    Except String (List (List Cell)) :=
  match fis with
  | [] => .ok rows
  | fi :: rest =>
    match applyFilterStep df fi rows with
    | .error e => .error e
    | .ok rows' => applyFilters df rest rows'

/-- Code-point lexicographic order on character lists (Python string order,
used by pandas when sorting group keys). -/
def charListLe : List Char → List Char → Bool
  | [], _ => true
  | _ :: _, [] => false
  | a :: as, b :: bs =>
    if a.toNat < b.toNat then true
    else if b.toNat < a.toNat then false
    else charListLe as bs

/-- Code-point lexicographic order on strings. -/
def strLe (a b : String) : Bool := charListLe a.data b.data

/-- Insertion into a sorted list of strings. -/
def insertSorted (s : String) : List String → List String
  | [] => [s]
  | h :: t => if strLe s h then s :: h :: t else h :: insertSorted s t

/-- Insertion sort on strings (pandas `groupby` sorts group keys). -/
def sortStrings (l : List String) : List String := l.foldr insertSorted []

/-- Whether the grouped path of `_execute_analysis` returns early
(seo_agent.py 260-276): a truthy `group_by` that resolves to a column, with
aggregation "count" or "sum"; anything else falls through to the list path. -/
def groupedGuard (df : Table) (plan : SEOPlan) : Bool :=
  match plan.group_by with
  | none => false
  | some g =>
    g ≠ "" && (findColumn df.cols g).isSome &&
      (plan.aggregation == some "count" || plan.aggregation == some "sum")

/-- The executor's result: the grouped dict of seo_agent.py 265-276 (each
record is a group key plus, for "count", its size; the sheet-sourced columns
are all object dtype, so `sum(numeric_only=True)` contributes no sum columns)
or the list dict of seo_agent.py 290-295. -/
inductive AnalysisResult where
  | grouped (data : List (String × Option Nat)) (total_groups : Nat)
  | list (data : List (List Cell)) (total_matching : Nat) (columns : List String)
deriving DecidableEq, Repr

/-- Number of records in the returned `data` payload. -/
def resultRowCount : AnalysisResult → Nat
  | .grouped data _ => data.length
  | .list data _ _ => data.length

/-- The grouped early return (seo_agent.py 260-276), evaluated under
`groupedGuard`: group keys are the distinct non-NaN cell values of the
group column among the filtered rows, sorted (pandas `groupby` drops NaN
keys and sorts); "count" records carry the group sizes. -/
def groupedResult (df : Table) (plan : SEOPlan) (filtered : List (List Cell)) :
    AnalysisResult :=
  let gcol := (findColumn df.cols (plan.group_by.getD "")).getD ""
  let i := df.cols.indexOf gcol
  let keyvals := filtered.filterMap (fun r => cellAt r i)
  let keys := sortStrings keyvals.dedup
  if plan.aggregation == some "count" then
    .grouped (keys.map (fun k => (k, some (keyvals.count k)))) keys.length
  else
    .grouped (keys.map (fun k => (k, none))) keys.length

/-- The column-selection step (seo_agent.py 279-284): `none` when no
selection applies (empty request or nothing resolved), else the resolved
column names in request order. -/
def selectColumns (df : Table) (sel : List String) : Option (List String) :=
  if sel.isEmpty then none
  else
    let valid := sel.filterMap (findColumn df.cols)
    if valid.isEmpty then none else some valid

/-- `DataFrame.head(n)`: the first `n` rows, or all but the last `-n` rows
for negative `n`. -/
def pandasHead (n : Int) (l : List (List Cell)) : List (List Cell) :=
  if n ≥ 0 then l.take n.toNat else l.take (l.length - (-n).toNat)

/-- The column projection `result_df = result_df[valid_cols]` (seo_agent.py
284): with no applicable selection the rows keep all columns. -/
def projectRows (df : Table) (sel : Option (List String))
    (filtered : List (List Cell)) : List (List Cell) :=
  match sel with
  | some cs => filtered.map (fun r => cs.map (fun c => cellAt r (df.cols.indexOf c)))
  | none => filtered

/-- The ungrouped tail of `_execute_analysis` (seo_agent.py 279-295): column
selection, then the row limit (default 100), reporting the truncated data,
its length and the resulting columns. -/
def executeListPath (df : Table) (plan : SEOPlan) (filtered : List (List Cell)) :
    AnalysisResult :=
  let selCols := selectColumns df plan.select_columns
  let projected := projectRows df selCols filtered
  let limited := pandasHead (plan.limit.getD 100) projected
  .list limited limited.length (selCols.getD df.cols)

/-- `SEOAgent._execute_analysis` (seo_agent.py 206-295): the filter loop
(whose `float(...)` failure propagates), then the grouped early return, else
the select/limit list path. -/
def executeAnalysis (df : Table) (plan : SEOPlan) : Except String AnalysisResult :=
  (applyFilters df plan.filters df.rows).map (fun filtered =>
    if groupedGuard df plan then groupedResult df plan filtered
    else executeListPath df plan filtered)

/-! ## SEO agent: dataset cache and load (seo_agent.py 20-24, 38-51, 86-148) -/

/-- The process-wide cache state of the SEO agent (seo_agent.py 22-24). -/
structure SEOState where
  data_cache : Option Table
  cache_timestamp : Option Int
deriving DecidableEq, Repr

/-- `self._cache_ttl = 300` (seo_agent.py 24). -/
def cache_ttl : Int := 300

/-- Truthiness of `self._cache_timestamp` (a float: `None` and `0.0` falsy). -/
def tsTruthy : Option Int → Bool
  | none => false
  | some t => t ≠ 0

/-- The cache check of `_load_data` (seo_agent.py 91-98). -/
def cacheValid (s : SEOState) (now : Int) : Bool :=
  s.data_cache.isSome && tsTruthy s.cache_timestamp &&
    (now - s.cache_timestamp.getD 0 < cache_ttl)

/-- DataFrame construction from the sheet values (seo_agent.py 130-137):
first row as headers (names stripped), remaining rows as string cells;
`cellAt` supplies the NaN padding of short rows. -/
def dfFromValues (values : List (List String)) : Table :=
  match values with
  | [] => { cols := [], rows := [] }
  | headers :: data =>
    { cols := headers.map pyStrip, rows := data.map (fun r => r.map some) }

/-- `SEOAgent._load_data` (seo_agent.py 86-148).  `fetch` is the outcome of
the Sheets API call: `.error` when the fetch raises, `.ok values` its
`values` field.  Returns the loaded table (if any) and the new cache state:
a valid cache short-circuits, a raised fetch or empty sheet returns `none`
leaving the state untouched, and a successful fetch caches the new table. -/
def loadData (s : SEOState) (now : Int)
    (fetch : Except String (List (List String))) : Option Table × SEOState :=
  if cacheValid s now then (s.data_cache, s)
  else
    match fetch with
    | .error _ => (none, s)
    | .ok values =>
      if values.isEmpty then (none, s)
      else
        let df := dfFromValues values
        (some df, { data_cache := some df, cache_timestamp := some now })

/-- `df.empty` in `SEOAgent.process` (any axis of length 0). -/
def dfEmpty (df : Table) : Bool := df.rows.isEmpty || df.cols.isEmpty

/-- The load-failure guard of `SEOAgent.process` (seo_agent.py 44-51):
`some` when processing stops with the load-failure response. -/
def seoProcessGuard (df : Option Table) : Option AgentResponse :=
  match df with
  | none =>
    some { success := false, data := none, message := "", agent_name := "seo",
           error := some "Failed to load SEO data from spreadsheet" }
  | some t =>
    if dfEmpty t then
      some { success := false, data := none, message := "", agent_name := "seo",
             error := some "Failed to load SEO data from spreadsheet" }
    else none

/-! ## Helper lemmas -/

theorem intercalate_semicolon_singleton (x : String) :
    String.intercalate "; " [x] = x := rfl

theorem applyFilterStep_length_le (df : Table) (fi : SEOFilterItem)
    (rows out : List (List Cell)) (h : applyFilterStep df fi rows = .ok out) :
    out.length ≤ rows.length := by
  unfold applyFilterStep at h
  split at h
  · simp only [Except.ok.injEq] at h
    subst h
    exact Nat.le_refl _
  · split at h
    · simp at h
    · simp only [Except.ok.injEq] at h
      subst h
      exact Nat.le_refl _
    · rename_i p _
      simp only [Except.ok.injEq] at h
      subst h
      exact List.length_filter_le p rows

theorem applyFilters_length_le (df : Table) (fis : List SEOFilterItem)
    (rows out : List (List Cell)) (h : applyFilters df fis rows = .ok out) :
    out.length ≤ rows.length := by
  induction fis generalizing rows with
  | nil =>
    unfold applyFilters at h
    simp only [Except.ok.injEq] at h
    subst h
    exact Nat.le_refl _
  | cons fi rest ih =>
    unfold applyFilters at h
    split at h
    · simp at h
    · rename_i rows' hs
      exact Nat.le_trans (ih rows' h) (applyFilterStep_length_le df fi rows rows' hs)

theorem pandasHead_ofNat (N : Nat) (l : List (List Cell)) :
    pandasHead (N : Int) l = l.take N := by
  unfold pandasHead
  rw [if_pos (by exact_mod_cast Int.ofNat_nonneg N)]
  congr 1

theorem stripChars_eq_nil_iff (l : List Char) :
    stripChars l = [] ↔ ∀ c ∈ l, c.isWhitespace := by
  unfold stripChars
  rw [List.reverse_eq_nil_iff, List.dropWhile_eq_nil_iff]
  constructor
  · intro h c hc
    have h' : ∀ x ∈ l.dropWhile Char.isWhitespace, Char.isWhitespace x := by
      intro x hx
      exact h x (List.mem_reverse.mpr hx)
    have hsplit := List.takeWhile_append_dropWhile (p := Char.isWhitespace) (l := l)
    rw [← hsplit] at hc
    rcases List.mem_append.mp hc with h1 | h2
    · exact List.mem_takeWhile_imp h1
    · exact h' c h2
  · intro h x hx
    have : l.dropWhile Char.isWhitespace = [] := List.dropWhile_eq_nil_iff.mpr h
    rw [this] at hx
    cases hx

theorem pyStrip_eq_empty_iff (s : String) :
    pyStrip s = "" ↔ ∀ c ∈ s.data, c.isWhitespace := by
  unfold pyStrip
  rw [show ("" : String) = ⟨[]⟩ from rfl, String.ext_iff]
  exact stripChars_eq_nil_iff s.data

theorem notEmpty_eq_not_isEmpty (c : Cell) :
    notEmptyCellPred c = !isEmptyCellPred c := by
  cases c with
  | none => rfl
  | some s => simp [notEmptyCellPred, isEmptyCellPred, bne]

theorem processNames_mono (resolve : String → Option String) (ms : List String)
    (acc : List String) (a : String) (ha : a ∈ acc) :
    a ∈ processNames resolve ms acc := by
  induction ms generalizing acc with
  | nil => exact ha
  | cons m rest ih =>
    unfold processNames
    split
    · split
      · exact ih acc ha
      · exact ih (acc ++ [_]) (List.mem_append_left _ ha)
    · exact ih acc ha

theorem processNames_mem (resolve : String → Option String) (ms : List String)
    (m v : String) (hv : resolve m = some v) :
    ∀ acc, m ∈ ms → v ∈ processNames resolve ms acc := by
  induction ms with
  | nil => intro acc hm; cases hm
  | cons x rest ih =>
    intro acc hm
    unfold processNames
    rcases List.mem_cons.mp hm with rfl | hm'
    · rw [hv]
      show v ∈ if acc.contains v = true then processNames resolve rest acc
          else processNames resolve rest (acc ++ [v])
      by_cases hc : acc.contains v = true
      · rw [if_pos hc]
        exact processNames_mono resolve rest acc v (by simpa using hc)
      · rw [if_neg hc]
        exact processNames_mono resolve rest (acc ++ [v]) v
          (List.mem_append_right _ (List.mem_singleton.mpr rfl))
    · cases hr : resolve x with
      | none =>
        show v ∈ processNames resolve rest acc
        exact ih acc hm'
      | some api =>
        show v ∈ if acc.contains api = true then processNames resolve rest acc
            else processNames resolve rest (acc ++ [api])
        by_cases hc : acc.contains api = true
        · rw [if_pos hc]
          exact ih acc hm'
        · rw [if_neg hc]
          exact ih (acc ++ [api]) hm'

theorem validatePlan_metric_mem (plan : GAPlan) (m v : String)
    (hm : m ∈ plan.metrics) (hv : resolveMetric m = some v) :
    v ∈ (validatePlan plan).metrics := by
  have h1 : v ∈ processNames resolveMetric plan.metrics [] :=
    processNames_mem resolveMetric plan.metrics m v hv [] hm
  have h2 : ¬ (processNames resolveMetric plan.metrics [] = []) := by
    intro h
    rw [h] at h1
    cases h1
  unfold validatePlan
  simp only [if_neg h2]
  exact h1

theorem validatePlan_dimension_mem (plan : GAPlan) (d v : String)
    (hd : d ∈ plan.dimensions) (hv : resolveDimension d = some v) :
    v ∈ (validatePlan plan).dimensions := by
  have h1 : v ∈ processNames resolveDimension plan.dimensions [] :=
    processNames_mem resolveDimension plan.dimensions d v hv [] hd
  unfold validatePlan
  exact h1

/-! ## C1 -/

/-- C1 (amended part): whenever the classifier output is unusable and the
keyword fallback fires, the returned intent has `requires_analytics` or
`requires_seo`, so the orchestrator's "could not determine appropriate agent"
branch is unreachable from the fallback path. -/
theorem c1_fallback_never_no_handler (query : String) (property_id : Option String)
    (aResp sResp : AgentResponse) :
    ((detectIntent none query).requires_analytics
        || (detectIntent none query).requires_seo) = true ∧
    routeQuery (detectIntent none query) property_id aResp sResp ≠ RouteOutcome.noHandler := by
  unfold detectIntent routeQuery
  cases hs : hasSeoKeyword query <;> cases ha : hasAnalyticsKeyword query <;>
    cases hp : optStrTruthy property_id <;> simp

/-- A classifier reply that parses to well-formed JSON with both agent flags
false, as `_detect_intent` accepts it verbatim. -/
def bothFalseOutput : ClassifierOutput :=
  { requires_analytics := some false, requires_seo := some false,
    is_cross_agent := some false, reasoning := some "neither agent applies" }

/-- C1 (counterexample): a well-formed classifier output with both flags false
is returned as-is by the router, and the orchestrator then reaches the
"could not determine appropriate agent" branch — the claimed invariant only
holds on the keyword-fallback path, not for every classifier output. -/
theorem c1_counterexample :
    (detectIntent (some bothFalseOutput) "compare things").requires_analytics = false ∧
    (detectIntent (some bothFalseOutput) "compare things").requires_seo = false ∧
    routeQuery (detectIntent (some bothFalseOutput) "compare things") (some "123456")
        { success := true, data := some "A", message := "ok", agent_name := "analytics" }
        { success := true, data := some "S", message := "ok", agent_name := "seo" }
      = RouteOutcome.noHandler := by
  refine ⟨rfl, rfl, rfl⟩

/-! ## C5 -/

/-- C5: in the router's keyword fallback, a query containing an SEO keyword
and no analytics keyword yields `requires_seo = true`, and a query containing
no keyword from either set defaults to `requires_analytics = true`. -/
theorem c5_keyword_fallback (query : String) :
    (hasSeoKeyword query = true → hasAnalyticsKeyword query = false →
      (detectIntent none query).requires_seo = true) ∧
    (hasSeoKeyword query = false → hasAnalyticsKeyword query = false →
      (detectIntent none query).requires_analytics = true) := by
  unfold detectIntent
  constructor
  · intro hs _
    simp [hs]
  · intro hs ha
    simp [hs, ha]

/-- C5 witness: "seo check of my site" contains the SEO keyword "seo" and no
analytics keyword; "hello there" contains no keyword from either set. -/
theorem c5_keyword_fallback_witness :
    (detectIntent none "seo check of my site").requires_seo = true ∧
    (detectIntent none "hello there").requires_analytics = true :=
  ⟨(c5_keyword_fallback "seo check of my site").1 (by decide) (by decide),
   (c5_keyword_fallback "hello there").2 (by decide) (by decide)⟩

/-! ## C4 -/

/-- C4: fusing one successful and one failed handler result (in either order)
yields a failure whose error is the semicolon-join of the single error message
(hence that message itself) and whose partial-data map holds exactly the
successful handler's data keyed by its agent name. -/
theorem c4_fusion_partial_failure (a b : AgentResponse) (msg eb : String)
    (ha : a.success = true) (hae : a.error = none)
    (hb : b.success = false) (hbe : b.error = some eb) (hne : eb ≠ "") :
    fuseResponses [a, b] msg = .failure eb [(a.agent_name, a.data)] ∧
    fuseResponses [b, a] msg = .failure eb [(a.agent_name, a.data)] := by
  unfold fuseResponses
  simp [truthyErr, hae, hbe, hne, ha, hb, List.filterMap,
    intercalate_semicolon_singleton]

/-- C4 witness: a concrete success/failure pair. -/
theorem c4_fusion_partial_failure_witness :
    fuseResponses
        [{ success := true, data := some "rows", message := "ok", agent_name := "analytics" },
         { success := false, data := none, message := "", agent_name := "seo",
           error := some "boom" }] "unused"
      = .failure "boom" [("analytics", some "rows")] :=
  (c4_fusion_partial_failure
    { success := true, data := some "rows", message := "ok", agent_name := "analytics" }
    { success := false, data := none, message := "", agent_name := "seo", error := some "boom" }
    "unused" "boom" rfl rfl rfl rfl (by decide)).1

/-! ## C9 -/

/-- C9: every successfully built report request carries the fixed row limit
1000, whatever the plan (filters, order_by, metrics, dimensions, date range)
contains. -/
theorem c9_fixed_row_limit (property_id : String) (plan : GAPlan) (now : Int)
    (req : RunReportRequest) (h : buildReportRequest property_id plan now = .ok req) :
    req.limit = 1000 := by
  unfold buildReportRequest at h
  split at h
  · simp at h
  · simp only [Except.ok.injEq] at h
    subst h
    rfl

/-- C9 witness: a concrete relative-range plan builds a request, whose limit
the theorem pins at 1000. -/
theorem c9_fixed_row_limit_witness :
    ({ property := "properties/123", date_ranges := [(.rel (-7), .rel 0)],
       metrics := [], dimensions := none, dimension_filter := none,
       limit := 1000 } : RunReportRequest).limit = 1000 :=
  c9_fixed_row_limit "123"
    { date_range := some { type := some "relative", days := some 7 } } 0
    { property := "properties/123", date_ranges := [(.rel (-7), .rel 0)],
      metrics := [], dimensions := none, dimension_filter := none, limit := 1000 }
    (by rfl)

/-! ## C8 -/

/-- C8: when the validated plan has at least one filter clause, the built
report request is identical to the one built from the plan restricted to its
first clause (all later clauses are ignored), and its dimension filter is the
translation of that first clause; with no clauses the request carries no
dimension filter. -/
theorem c8_first_filter_only (property_id : String) (plan : GAPlan) (now : Int) :
    (∀ f rest, plan.filters = f :: rest →
      buildReportRequest property_id plan now
          = buildReportRequest property_id { plan with filters := [f] } now ∧
      ∀ req, buildReportRequest property_id plan now = .ok req →
        req.dimension_filter = some (translateFilter f)) ∧
    (plan.filters = [] →
      ∀ req, buildReportRequest property_id plan now = .ok req →
        req.dimension_filter = none) := by
  constructor
  · intro f rest hf
    constructor
    · unfold buildReportRequest
      have hdr : ({ plan with filters := [f] } : GAPlan).date_range = plan.date_range := rfl
      rw [hdr]
      cases hr : resolveDates now (plan.date_range.getD {}) with
      | error e => rfl
      | ok p =>
        obtain ⟨s, e⟩ := p
        rw [hf]
    · intro req h
      unfold buildReportRequest at h
      split at h
      · simp at h
      · simp only [Except.ok.injEq] at h
        subst h
        rw [hf]
  · intro hf req h
    unfold buildReportRequest at h
    split at h
    · simp at h
    · simp only [Except.ok.injEq] at h
      subst h
      rw [hf]

/-- C8 witness: with two filter clauses and a relative date range, the built
request equals the one built from the first clause alone. -/
theorem c8_first_filter_only_witness :
    buildReportRequest "9"
        { date_range := some { type := some "relative", days := some 3 },
          filters := [{ dimension := some "country", value := some "US" },
                      { dimension := some "city", value := some "Paris" }] } 5
      = buildReportRequest "9"
        { date_range := some { type := some "relative", days := some 3 },
          filters := [{ dimension := some "country", value := some "US" }] } 5 :=
  ((c8_first_filter_only "9"
    { date_range := some { type := some "relative", days := some 3 },
      filters := [{ dimension := some "country", value := some "US" },
                  { dimension := some "city", value := some "Paris" }] } 5).1
    { dimension := some "country", value := some "US" }
    [{ dimension := some "city", value := some "Paris" }] rfl).1

/-! ## C10 -/

/-- C10: when the cache check fails and the spreadsheet fetch raises, the
loader returns no table and the cache state (table and timestamp) is exactly
what it was; `SEOAgent.process` then stops with the load-failure response
instead of serving any previously cached table. -/
theorem c10_failed_fetch_preserves_state (s : SEOState) (now : Int) (e : String)
    (hcv : cacheValid s now = false) :
    loadData s now (.error e) = (none, s) ∧
    seoProcessGuard (loadData s now (.error e)).1
      = some { success := false, data := none, message := "", agent_name := "seo",
               error := some "Failed to load SEO data from spreadsheet" } := by
  unfold loadData
  rw [hcv]
  exact ⟨rfl, rfl⟩

/-- C10 witness: a stale cached table (timestamp 100, now 1000, TTL 300) with
a raised fetch: the state is untouched and the failure guard fires. -/
theorem c10_failed_fetch_preserves_state_witness :
    loadData { data_cache := some { cols := ["Address"], rows := [[some "https://a"]] },
               cache_timestamp := some 100 } 1000 (.error "fetch failed")
      = (none, { data_cache := some { cols := ["Address"], rows := [[some "https://a"]] },
                 cache_timestamp := some 100 }) :=
  (c10_failed_fetch_preserves_state
    { data_cache := some { cols := ["Address"], rows := [[some "https://a"]] },
      cache_timestamp := some 100 } 1000 "fetch failed" (by decide)).1

/-! ## C3 -/

/-- The plan of the C3 counterexample: one filter clause whose dimension
"countr" resolves only at the fuzzy tier. -/
def planC3 : GAPlan :=
  { filters := [{ dimension := some "countr", value := some "United States" }] }

/-- C3 (counterexample): the clause's dimension "countr" resolves through the
three-tier match (at the fuzzy tier, to "country"), yet `_validate_plan`
drops the clause — the filter keep-condition consults only the mapping table
and the exact allowlist, not the fuzzy tier. -/
theorem c3_counterexample :
    findClosestDimension "countr" = some "country" ∧
    resolveDimension "countr" = some "country" ∧
    (validatePlan planC3).filters = [] := by decide

/-- C3 (amended): a filter clause is kept iff its dimension field is exactly
a canonical dimension or its lower-casing is a key of the mapping table; the
fuzzy tier is not consulted for filters. -/
theorem c3_filter_validation_amended (plan : GAPlan) (f : GAFilterItem) :
    f ∈ (validatePlan plan).filters ↔
      f ∈ plan.filters ∧
        (VALID_DIMENSIONS.contains (f.dimension.getD "") = true ∨
         (List.lookup (pyLower (f.dimension.getD "")) DIMENSION_MAPPINGS).isSome = true) := by
  unfold validatePlan
  simp [List.mem_filter, filterKeep, Bool.or_eq_true]

/-! ## C7 -/

/-- C7: a metric name that is exactly a canonical metric and a dimension name
that is exactly a canonical dimension resolve to themselves (identity) and
are included unchanged in the validated plan's metric/dimension lists. -/
theorem c7_exact_allowlist_identity (plan : GAPlan) (m d : String)
    (hm : m ∈ VALID_METRICS) (hd : d ∈ VALID_DIMENSIONS)
    (hmp : m ∈ plan.metrics) (hdp : d ∈ plan.dimensions) :
    resolveMetric m = some m ∧ resolveDimension d = some d ∧
    m ∈ (validatePlan plan).metrics ∧ d ∈ (validatePlan plan).dimensions := by
  have hml : ∀ x ∈ VALID_METRICS, resolveMetric x = some x := by decide
  have hdl : ∀ x ∈ VALID_DIMENSIONS, resolveDimension x = some x := by decide
  exact ⟨hml m hm, hdl d hd,
    validatePlan_metric_mem plan m m hmp (hml m hm),
    validatePlan_dimension_mem plan d d hdp (hdl d hd)⟩

/-- C7 witness: the canonical names "sessions" and "country" pass validation
unchanged. -/
theorem c7_exact_allowlist_identity_witness :
    "sessions" ∈ (validatePlan { metrics := ["sessions"], dimensions := ["country"] }).metrics ∧
    "country" ∈ (validatePlan { metrics := ["sessions"], dimensions := ["country"] }).dimensions :=
  ⟨(c7_exact_allowlist_identity { metrics := ["sessions"], dimensions := ["country"] }
      "sessions" "country" (by decide) (by decide) (by decide) (by decide)).2.2.1,
   (c7_exact_allowlist_identity { metrics := ["sessions"], dimensions := ["country"] }
      "sessions" "country" (by decide) (by decide) (by decide) (by decide)).2.2.2⟩

/-! ## C2 -/

theorem projectRows_length (df : Table) (sel : Option (List String))
    (filtered : List (List Cell)) :
    (projectRows df sel filtered).length = filtered.length := by
  cases sel <;> simp [projectRows]

/-- Truncation of the list-path payload to its first `N` records. -/
def truncListResult (N : Nat) : AnalysisResult → AnalysisResult
  | .list data _ columns => .list (data.take N) (data.take N).length columns
  | r => r

/-- The table of the C2 counterexample: one column, two distinct values. -/
def dfC2 : Table :=
  { cols := ["Indexability"], rows := [[some "Indexable"], [some "Non-Indexable"]] }

/-- The plan of the C2 counterexample: a count-grouping plan with limit 1. -/
def planC2 : SEOPlan :=
  { operation := some "group", group_by := some "Indexability",
    aggregation := some "count", limit := some 1 }

/-- C2 (counterexample): a grouped plan with row limit 1 returns two records —
on the grouped path the executor returns before the limit is ever applied, so
"at most N rows" fails for grouped results. -/
theorem c2_counterexample :
    planC2.limit = some 1 ∧
    executeAnalysis dfC2 planC2
      = .ok (.grouped [("Indexable", some 1), ("Non-Indexable", some 1)] 2) ∧
    resultRowCount (.grouped [("Indexable", some 1), ("Non-Indexable", some 1)] 2) = 2 := by
  refine ⟨rfl, ?_, rfl⟩
  rfl

/-- C2 (amended): for every plan whose limit is `N` and that does not take
the grouped early return, the executor's data has at most `N` rows, and the
result is exactly the unlimited run of the same pipeline (filtering and
column selection unchanged) truncated to its first `N` rows — i.e. the limit
is applied last, after filtering and selection. -/
theorem c2_limit_applied_last (df : Table) (plan : SEOPlan) (N : Nat)
    (hlim : plan.limit = some (N : Int)) (hg : groupedGuard df plan = false) :
    (∀ r, executeAnalysis df plan = .ok r → resultRowCount r ≤ N) ∧
    executeAnalysis df plan
      = (executeAnalysis df { plan with limit := some (df.rows.length : Int) }).map
          (truncListResult N) := by
  have hgneg : ¬ (groupedGuard df plan = true) := by simp [hg]
  constructor
  · intro r hr
    unfold executeAnalysis at hr
    cases hfil : applyFilters df plan.filters df.rows with
    | error e => rw [hfil] at hr; simp [Except.map] at hr
    | ok filtered =>
      rw [hfil] at hr
      simp only [Except.map, if_neg hgneg, Except.ok.injEq] at hr
      subst hr
      unfold executeListPath
      simp only [hlim, Option.getD_some, pandasHead_ofNat, resultRowCount]
      exact List.length_take_le _ _
  · unfold executeAnalysis
    have hfil2 : ({ plan with limit := some (df.rows.length : Int) } : SEOPlan).filters
        = plan.filters := rfl
    rw [hfil2]
    cases hfil : applyFilters df plan.filters df.rows with
    | error e => rfl
    | ok filtered =>
      have hg2 : ¬ (groupedGuard df { plan with limit := some (df.rows.length : Int) } = true) :=
        hgneg
      simp only [Except.map, if_neg hgneg, if_neg hg2, Except.ok.injEq]
      have hsel : ({ plan with limit := some (df.rows.length : Int) } : SEOPlan).select_columns
          = plan.select_columns := rfl
      have hlim2 : ({ plan with limit := some (df.rows.length : Int) } : SEOPlan).limit
          = some (df.rows.length : Int) := rfl
      have hproj : (projectRows df (selectColumns df plan.select_columns) filtered).length
          ≤ df.rows.length := by
        rw [projectRows_length]
        exact applyFilters_length_le df plan.filters df.rows filtered hfil
      unfold executeListPath
      rw [hsel, hlim2, hlim]
      simp only [Option.getD_some, pandasHead_ofNat]
      rw [List.take_of_length_le hproj]
      rfl

/-- C2 witness: three rows, limit 2, plain list plan — the executor returns
the first two rows. -/
theorem c2_limit_applied_last_witness :
    resultRowCount (.list [[some "x"], [some "y"]] 2 ["A"]) ≤ 2 :=
  (c2_limit_applied_last
    { cols := ["A"], rows := [[some "x"], [some "y"], [some "z"]] }
    { limit := some 2 } 2 rfl rfl).1
    (.list [[some "x"], [some "y"]] 2 ["A"]) (by rfl)

/-! ## C6 -/

/-- C6: with a resolvable column, the `is_empty` filter keeps exactly the
rows whose cell is missing/NaN or whitespace-only (that is what
`isEmptyCellPred` tests, as the third conjunct states), `not_empty` keeps
exactly the complementary rows, and together the two outputs are a
permutation of the input rows — a partition with no overlap and no row left
out. -/
theorem c6_is_empty_not_empty_partition (df : Table) (rows : List (List Cell))
    (colName value col : String)
    (hcol : findColumn df.cols colName = some col) :
    applyFilterStep df
        { column := some colName, operator := some "is_empty", value := some value } rows
      = .ok (rows.filter (fun r => isEmptyCellPred (cellAt r (df.cols.indexOf col)))) ∧
    applyFilterStep df
        { column := some colName, operator := some "not_empty", value := some value } rows
      = .ok (rows.filter (fun r => !(isEmptyCellPred (cellAt r (df.cols.indexOf col))))) ∧
    (∀ c : Cell, isEmptyCellPred c = true ↔
      (c = none ∨ ∃ s, c = some s ∧ ∀ ch ∈ s.data, ch.isWhitespace)) ∧
    List.Perm
      (rows.filter (fun r => isEmptyCellPred (cellAt r (df.cols.indexOf col)))
        ++ rows.filter (fun r => !(isEmptyCellPred (cellAt r (df.cols.indexOf col)))))
      rows := by
  refine ⟨?_, ?_, ?_, ?_⟩
  · unfold applyFilterStep
    rw [show ({ column := some colName, operator := some "is_empty", value := some value }
        : SEOFilterItem).column.getD "" = colName from rfl, hcol]
    rfl
  · unfold applyFilterStep
    rw [show ({ column := some colName, operator := some "not_empty", value := some value }
        : SEOFilterItem).column.getD "" = colName from rfl, hcol]
    show Except.ok (rows.filter (fun r => notEmptyCellPred (cellAt r (df.cols.indexOf col)))) = _
    congr 1
    exact List.filter_congr (fun a _ => notEmpty_eq_not_isEmpty _)
  · intro c
    cases c with
    | none => simp [isEmptyCellPred]
    | some s =>
      simp [isEmptyCellPred, astypeStr, ← pyStrip_eq_empty_iff]
  · exact List.filter_append_perm _ rows

/-- The table of the C6 witness: a non-empty, a whitespace-only, a missing
and an empty cell. -/
def dfC6 : Table :=
  { cols := ["Meta Description 1"],
    rows := [[some "desc"], [some "   "], [none], [some ""]] }

/-- The filter clause of the C6 witness. -/
def fiC6 : SEOFilterItem :=
  { column := some "meta description", operator := some "is_empty", value := some "" }

/-- C6 witness: on the four-row column, `is_empty` keeps the whitespace-only,
missing and empty cells and drops the non-empty one. -/
theorem c6_is_empty_not_empty_partition_witness :
    applyFilterStep dfC6 fiC6 dfC6.rows = .ok [[some "   "], [none], [some ""]] :=
  ((c6_is_empty_not_empty_partition dfC6 dfC6.rows
    "meta description" "" "Meta Description 1" (by rfl)).1).trans (by rfl)
